import Mathlib

/-!
Verification of the `mcp-server-comfy-selfie` server (src/index.ts).

The core of the program is the `generate-selfie` tool handler: a Promise
executor wrapped around a `CallWrapper` with five callbacks
(`onFinished`, `onFailed`, `onStart`, `onPending`, `onProgress`), an
optional S3 re-hosting step with fallback, and an Express side channel
(`POST /messages`) dispatching on a session-id → transport map.

The embedding models one tool invocation as a fold over the trace of
callback deliveries. Each trace element carries the callback event and
the state of the caller's abort signal at the moment the callback runs.
The awaited Promise is the `result` field of `AdapterState`: JS Promise
semantics make `resolve`/`reject` no-ops once the promise is settled,
which `settle` mirrors. Progress notifications (`sendNotification`) and
`api.interrupt()` calls are recorded as observable outputs. JS numbers
are modelled as ℚ; JS `Error` values by their message strings; absent
fields (`undefined`) by `Option`.
-/

/-- URL strings, as produced by `api.getPathImage` or the S3 public endpoint. -/
abbrev Url := String

/-- Progress-correlation token (`_meta.progressToken` of the MCP call). -/
abbrev ProgressToken := String

/-- One image descriptor as found in ComfyUI output data (`outputData.images[i]`). -/
structure ImageInfo where
  filename : String
  subfolder : String
  folderType : String
deriving DecidableEq, Repr

/-- The output slot value `data.generated_image`: its `images` field is
`undefined` (`none`) or a list of image descriptors. -/
structure OutputData where
  images : Option (List ImageInfo)
deriving DecidableEq, Repr

/-- One callback delivered by the `CallWrapper` to the handlers registered at
src/index.ts lines 220–300. `onFinished` carries `data.generated_image`
(`none` models an absent slot); `onFailed` carries the error's message;
`onProgress` carries `info.value`, `info.max` and `info.node`. -/
inductive CallbackEvent where
  | onFinished (generated_image : Option OutputData)
  | onFailed (errMsg : String)
  | onStart
  | onPending
  | onProgress (value : ℚ) (maxVal : ℚ) (node : String)
deriving DecidableEq, Repr

/-- One `notifications/progress` message sent through `sendNotification`. -/
structure ProgressNotification where
  progressToken : ProgressToken
  progress : ℚ
deriving DecidableEq, Repr

/-- State of one tool invocation while the Promise of lines 218–302 is being
driven by callbacks: the promise's settlement (`none` = still pending),
the progress notifications sent so far, and how many times
`api.interrupt()` has been called. -/
structure AdapterState where
  result : Option (Except String Url)
  notifications : List ProgressNotification
  interrupts : ℕ

/-- Message of the error rejected at src/index.ts line 236 when the output
slot has no usable image. -/
def outputMissingMsg : String := "Generated image data not found in ComfyUI response."

/-- JS-Promise settlement: `resolve`/`reject` are no-ops once settled. -/
def settle (s : AdapterState) (r : Except String Url) : AdapterState :=
  match s.result with
  | some _ => s
  | none => { s with result := some r }

/-- The guarded `sendNotification` pattern: sends only when a progress token
is present (`if (_meta?.progressToken) { await sendNotification(...) }`). -/
def notify (token : Option ProgressToken) (s : AdapterState) (p : ℚ) : AdapterState :=
  match token with
  | none => s
  | some t => { s with notifications := s.notifications ++ [⟨t, p⟩] }

/-- The `if (signal.aborted) { api.interrupt(); }` check at the end of the
`onPending` and `onProgress` handlers. -/
def pollAbort (s : AdapterState) (aborted : Bool) : AdapterState :=
  if aborted then { s with interrupts := s.interrupts + 1 } else s

/-- One callback delivery, mirroring the five handlers registered on the
`CallWrapper` (src/index.ts lines 220–300). `getPathImage` is the remote
client's URL-building rule (`api.getPathImage`), an external collaborator.
`aborted` is `signal.aborted` at the time the callback runs. -/
def handleEvent (token : Option ProgressToken) (getPathImage : ImageInfo → Url)
    (s : AdapterState) (ev : CallbackEvent) (aborted : Bool) : AdapterState :=
  match ev with
  | .onFinished data =>
      match data with
      | none => settle s (.error outputMissingMsg)
      | some od =>
        match od.images with
        | none => settle s (.error outputMissingMsg)
        | some [] => settle s (.error outputMissingMsg)
        | some (img :: _) => settle s (.ok (getPathImage img))
  | .onFailed msg => settle s (.error msg)
  | .onStart => notify token s 0
  | .onPending => pollAbort (notify token s 0) aborted
  | .onProgress v m _ => pollAbort (notify token s (v / m)) aborted

/-- Fold a trace of callback deliveries from a given adapter state. -/
def runFrom (token : Option ProgressToken) (getPathImage : ImageInfo → Url)
    (s : AdapterState) (trace : List (CallbackEvent × Bool)) : AdapterState :=
  trace.foldl (fun st p => handleEvent token getPathImage st p.1 p.2) s

/-- Initial adapter state: promise pending, nothing sent, no interrupts. -/
def initState : AdapterState := ⟨none, [], 0⟩

/-- Run a whole trace of callback deliveries for one invocation. -/
def runCallbacks (token : Option ProgressToken) (getPathImage : ImageInfo → Url)
    (trace : List (CallbackEvent × Bool)) : AdapterState :=
  runFrom token getPathImage initState trace

/-- Whether an event is a terminal callback (`onFinished` or `onFailed`). -/
def isTerminal : CallbackEvent → Bool
  | .onFinished _ => true
  | .onFailed _ => true
  | _ => false

/-- Whether a callback polls the cancellation signal: exactly `onPending`
and `onProgress` contain the `if (signal.aborted)` check. -/
def pollsSignal : CallbackEvent → Bool
  | .onPending => true
  | .onProgress _ _ _ => true
  | _ => false

/-- The settlement a callback produces on a still-pending promise: terminal
callbacks settle it (success or error), the others leave it pending. -/
def settleValue (getPathImage : ImageInfo → Url) : CallbackEvent → Option (Except String Url)
  | .onFinished none => some (.error outputMissingMsg)
  | .onFinished (some od) =>
      match od.images with
      | none => some (.error outputMissingMsg)
      | some [] => some (.error outputMissingMsg)
      | some (img :: _) => some (.ok (getPathImage img))
  | .onFailed msg => some (.error msg)
  | _ => none

/-- One item of an MCP tool result's `content` array. -/
structure ContentItem where
  itemType : String
  text : String
deriving DecidableEq, Repr

/-- An MCP `CallToolResult` as shaped by the handler: a `content` list and
the `isError` flag (absent in JS modelled as `false`). -/
structure CallToolResult where
  content : List ContentItem
  isError : Bool
deriving DecidableEq, Repr

/-- The error result built in the handler's catch block (lines 329–334). -/
def errorResult (msg : String) : CallToolResult :=
  { content := [⟨"text", "Error generating image: " ++ msg⟩], isError := true }

/-- The success result built at lines 321–323. -/
def successResult (url : Url) : CallToolResult :=
  { content := [⟨"text", url⟩], isError := false }

/-- Everything observable from one tool invocation: the returned result
(`none` when the awaited promise never settles, i.e. the call hangs), the
progress notifications sent, and the number of `api.interrupt()` calls. -/
structure ToolOutcome where
  result : Option CallToolResult
  notifications : List ProgressNotification
  interrupts : ℕ

/-- The whole `generate-selfie` handler (src/index.ts lines 174–336).
`initResult` is the behaviour of the code before the pre-start
notification (`api.init()` and prompt building): `.error m` models a throw
with message `m`, caught by the outer catch. `trace` is the sequence of
callbacks the `CallWrapper` delivers, each with the abort-signal state at
delivery time. `s3Enabled` models `env.S3_UPLOAD_ENABLED && s3Client`
being truthy; `upload` is the behaviour of `uploadToS3` on the ComfyUI
URL (`.error m` models a throw, swallowed with fallback at lines 311–317). -/
def toolHandler (token : Option ProgressToken) (getPathImage : ImageInfo → Url)
    (initResult : Except String Unit)
    (trace : List (CallbackEvent × Bool))
    (s3Enabled : Bool) (upload : Url → Except String Url) : ToolOutcome :=
  match initResult with
  | .error msg => ⟨some (errorResult msg), [], 0⟩
  | .ok _ =>
    let preNotes : List ProgressNotification :=
      match token with
      | none => []
      | some t => [⟨t, 0⟩]
    let st := runCallbacks token getPathImage trace
    match st.result with
    | none => ⟨none, preNotes ++ st.notifications, st.interrupts⟩
    | some (.error e) =>
        ⟨some (errorResult e), preNotes ++ st.notifications, st.interrupts⟩
    | some (.ok comfyUrl) =>
        let finalUrl :=
          if s3Enabled then
            match upload comfyUrl with
            | .ok u => u
            | .error _ => comfyUrl
          else comfyUrl
        ⟨some (successResult finalUrl), preNotes ++ st.notifications, st.interrupts⟩

/-- Response of the `POST /messages` express handler (lines 348–356):
the request body is forwarded to the transport found for the session id,
or a 400 is sent, or — when the property read produced a truthy value that
is not a transport — the call `transport.handlePostMessage(req, res)`
throws a TypeError that escapes the async handler, so no response at all
is produced by the handler's own code. -/
inductive PostResponse (τ : Type) where
  | forwarded (t : τ)
  | clientError (status : ℕ) (body : String)
  | thrownTypeError
deriving DecidableEq, Repr

/-- Own-property lookup in the `transports` session map: exactly the
entries the `/sse` handler registered via
`transports[transport.sessionId] = transport` and has not yet deleted. -/
def lookupTransport {τ : Type} (transports : List (String × τ)) (sessionId : String) :
    Option τ :=
  (transports.find? (fun p => p.1 == sessionId)).map Prod.snd

/-- Property names a plain object literal (`const transports = {}`,
src/index.ts line 16) inherits from `Object.prototype` in Node: reading any
of them yields a truthy function or object even though no session was ever
registered under that id. -/
def objectProtoProps : List String :=
  ["constructor", "hasOwnProperty", "isPrototypeOf", "propertyIsEnumerable",
   "toLocaleString", "toString", "valueOf", "__proto__",
   "__defineGetter__", "__defineSetter__", "__lookupGetter__", "__lookupSetter__"]

/-- Result of the JS property read `transports[sessionId]`: an own property
(a registered transport), a truthy value inherited from `Object.prototype`
through the prototype chain, or `undefined`. -/
inductive PropRead (τ : Type) where
  | ownTransport (t : τ)
  | inherited (name : String)
  | undefinedRead
deriving DecidableEq, Repr

/-- The JS property read `transports[sessionId]` at src/index.ts line 350:
own properties shadow the prototype; otherwise the read walks the prototype
chain and finds the `Object.prototype` member for its property names;
otherwise it is `undefined`. -/
def readProp {τ : Type} (transports : List (String × τ)) (sessionId : String) :
    PropRead τ :=
  match lookupTransport transports sessionId with
  | some t => .ownTransport t
  | none =>
      if sessionId ∈ objectProtoProps then .inherited sessionId else .undefinedRead

/-- The `POST /messages` handler (src/index.ts lines 348–356): the guard
`if (transport)` tests truthiness of the property read, so a registered
transport is forwarded to; a value inherited from `Object.prototype` is
also truthy, the guard is taken, and `transport.handlePostMessage` —
`undefined` on such a value — is called, throwing a TypeError; only a
genuinely `undefined` read reaches the
`400 "No transport found for sessionId"` branch. -/
def handleMessagesPost {τ : Type} (transports : List (String × τ)) (sessionId : String) :
    PostResponse τ :=
  match readProp transports sessionId with
  | .ownTransport t => .forwarded t
  | .inherited _ => .thrownTypeError
  | .undefinedRead => .clientError 400 "No transport found for sessionId"

/-- The per-invocation seed: `Math.floor(Math.random() * 1_000_000)` at
src/index.ts line 207, where `r` is the value `Math.random()` returned
(a number in `[0, 1)`). -/
def generateSeed (r : ℚ) : ℤ := Int.floor (r * 1000000)

/-- Whether the first list is an initial segment of the second. -/
def leadsWith : List Char → List Char → Bool
  | [], _ => true
  | _ :: _, [] => false
  | p :: ps, c :: cs => p == c && leadsWith ps cs

/-- Whether `pat` occurs as a contiguous sublist of `l`. -/
def hasSub (l pat : List Char) : Bool :=
  match l with
  | [] => leadsWith pat []
  | _ :: tl => leadsWith pat l || hasSub tl pat

/-- Case-insensitive substring test on strings. -/
def containsCI (s pat : String) : Bool :=
  hasSub (s.data.map Char.toLower) (pat.data.map Char.toLower)

/-- Sample URL-building rule used by concrete witnesses. -/
def samplePathImage : ImageInfo → Url :=
  fun i => "http://comfy.local/view?filename=" ++ i.filename

/-- Whether the output slot value fails the check at src/index.ts lines
225–229: absent slot, absent `images` field, or empty `images` list. -/
def missingImages : Option OutputData → Bool
  | none => true
  | some od =>
      match od.images with
      | none => true
      | some [] => true
      | some (_ :: _) => false

/-- The settlement produced by the first terminal callback of an event list
(`none` when no terminal callback ever arrives). -/
def firstSettle (getPathImage : ImageInfo → Url) : List CallbackEvent → Option (Except String Url)
  | [] => none
  | ev :: rest =>
      match settleValue getPathImage ev with
      | some r => some r
      | none => firstSettle getPathImage rest

/-- Number of `api.interrupt()` calls a trace causes: one per `onPending` or
`onProgress` delivery at which the signal is aborted. -/
def countInterrupts (trace : List (CallbackEvent × Bool)) : ℕ :=
  trace.countP (fun p => pollsSignal p.1 && p.2)

lemma runFrom_nil (token : Option ProgressToken) (gpi : ImageInfo → Url) (s : AdapterState) :
    runFrom token gpi s [] = s := rfl

lemma runFrom_cons (token : Option ProgressToken) (gpi : ImageInfo → Url) (s : AdapterState)
    (p : CallbackEvent × Bool) (rest : List (CallbackEvent × Bool)) :
    runFrom token gpi s (p :: rest) = runFrom token gpi (handleEvent token gpi s p.1 p.2) rest := rfl

lemma runFrom_append (token : Option ProgressToken) (gpi : ImageInfo → Url) (s : AdapterState)
    (t1 t2 : List (CallbackEvent × Bool)) :
    runFrom token gpi s (t1 ++ t2) = runFrom token gpi (runFrom token gpi s t1) t2 := by
  simp [runFrom, List.foldl_append]

lemma settle_result_some (s : AdapterState) (x r : Except String Url)
    (h : s.result = some r) : (settle s x).result = some r := by
  simp [settle, h]

lemma notify_result (token : Option ProgressToken) (s : AdapterState) (p : ℚ) :
    (notify token s p).result = s.result := by
  cases token <;> rfl

lemma pollAbort_result (s : AdapterState) (ab : Bool) :
    (pollAbort s ab).result = s.result := by
  cases ab <;> simp [pollAbort]

lemma notify_interrupts (token : Option ProgressToken) (s : AdapterState) (p : ℚ) :
    (notify token s p).interrupts = s.interrupts := by
  cases token <;> rfl

lemma settle_interrupts (s : AdapterState) (x : Except String Url) :
    (settle s x).interrupts = s.interrupts := by
  unfold settle
  cases h : s.result <;> simp

lemma settle_notifications (s : AdapterState) (x : Except String Url) :
    (settle s x).notifications = s.notifications := by
  unfold settle
  cases h : s.result <;> simp

lemma pollAbort_interrupts (s : AdapterState) (ab : Bool) :
    (pollAbort s ab).interrupts = s.interrupts + (if ab then 1 else 0) := by
  cases ab <;> simp [pollAbort]

lemma pollAbort_notifications (s : AdapterState) (ab : Bool) :
    (pollAbort s ab).notifications = s.notifications := by
  cases ab <;> simp [pollAbort]

lemma handleEvent_result_some (token : Option ProgressToken) (gpi : ImageInfo → Url)
    (s : AdapterState) (ev : CallbackEvent) (ab : Bool) (r : Except String Url)
    (h : s.result = some r) :
    (handleEvent token gpi s ev ab).result = some r := by
  rcases ev with data | msg | _ | _ | ⟨v, m, node⟩
  · rcases data with _ | ⟨_ | (_ | ⟨img, rest⟩)⟩ <;>
      simp [handleEvent, settle, h]
  · simp [handleEvent, settle, h]
  · simp [handleEvent, notify_result, h]
  · simp [handleEvent, pollAbort_result, notify_result, h]
  · simp [handleEvent, pollAbort_result, notify_result, h]

lemma handleEvent_result_none (token : Option ProgressToken) (gpi : ImageInfo → Url)
    (s : AdapterState) (ev : CallbackEvent) (ab : Bool)
    (h : s.result = none) :
    (handleEvent token gpi s ev ab).result = settleValue gpi ev := by
  rcases ev with data | msg | _ | _ | ⟨v, m, node⟩
  · rcases data with _ | ⟨_ | (_ | ⟨img, rest⟩)⟩ <;>
      simp [handleEvent, settle, settleValue, h]
  · simp [handleEvent, settle, settleValue, h]
  · simp [handleEvent, notify_result, settleValue, h]
  · simp [handleEvent, pollAbort_result, notify_result, settleValue, h]
  · simp [handleEvent, pollAbort_result, notify_result, settleValue, h]

lemma handleEvent_interrupts (token : Option ProgressToken) (gpi : ImageInfo → Url)
    (s : AdapterState) (ev : CallbackEvent) (ab : Bool) :
    (handleEvent token gpi s ev ab).interrupts =
      s.interrupts + (if pollsSignal ev && ab then 1 else 0) := by
  rcases ev with data | msg | _ | _ | ⟨v, m, node⟩
  · rcases data with _ | ⟨_ | (_ | ⟨img, rest⟩)⟩ <;>
      simp [handleEvent, settle_interrupts, pollsSignal]
  · simp [handleEvent, settle_interrupts, pollsSignal]
  · simp [handleEvent, notify_interrupts, pollsSignal]
  · simp [handleEvent, pollAbort_interrupts, notify_interrupts, pollsSignal]
  · simp [handleEvent, pollAbort_interrupts, notify_interrupts, pollsSignal]

lemma handleEvent_notifications_none (gpi : ImageInfo → Url)
    (s : AdapterState) (ev : CallbackEvent) (ab : Bool) :
    (handleEvent none gpi s ev ab).notifications = s.notifications := by
  rcases ev with data | msg | _ | _ | ⟨v, m, node⟩
  · rcases data with _ | ⟨_ | (_ | ⟨img, rest⟩)⟩ <;>
      simp [handleEvent, settle_notifications]
  · simp [handleEvent, settle_notifications]
  · simp [handleEvent, notify]
  · simp [handleEvent, pollAbort_notifications, notify]
  · simp [handleEvent, pollAbort_notifications, notify]

lemma runFrom_result_some (token : Option ProgressToken) (gpi : ImageInfo → Url)
    (trace : List (CallbackEvent × Bool)) (s : AdapterState) (r : Except String Url)
    (h : s.result = some r) :
    (runFrom token gpi s trace).result = some r := by
  induction trace generalizing s with
  | nil => simpa [runFrom] using h
  | cons p rest ih =>
      rw [runFrom_cons]
      exact ih _ (handleEvent_result_some token gpi s p.1 p.2 r h)

lemma runFrom_result_none (token : Option ProgressToken) (gpi : ImageInfo → Url)
    (trace : List (CallbackEvent × Bool)) (s : AdapterState)
    (h : s.result = none) :
    (runFrom token gpi s trace).result = firstSettle gpi (trace.map Prod.fst) := by
  induction trace generalizing s with
  | nil => simpa [runFrom, firstSettle] using h
  | cons p rest ih =>
      rw [runFrom_cons]
      rcases hsv : settleValue gpi p.1 with _ | r
      · have h2 : (handleEvent token gpi s p.1 p.2).result = none := by
          rw [handleEvent_result_none token gpi s p.1 p.2 h, hsv]
        rw [ih _ h2]
        simp [firstSettle, hsv]
      · have h2 : (handleEvent token gpi s p.1 p.2).result = some r := by
          rw [handleEvent_result_none token gpi s p.1 p.2 h, hsv]
        rw [runFrom_result_some token gpi rest _ r h2]
        simp [firstSettle, hsv]

lemma runFrom_notifications_none (gpi : ImageInfo → Url)
    (trace : List (CallbackEvent × Bool)) (s : AdapterState) :
    (runFrom none gpi s trace).notifications = s.notifications := by
  induction trace generalizing s with
  | nil => rfl
  | cons p rest ih =>
      rw [runFrom_cons, ih, handleEvent_notifications_none]

lemma runFrom_interrupts (token : Option ProgressToken) (gpi : ImageInfo → Url)
    (trace : List (CallbackEvent × Bool)) (s : AdapterState) :
    (runFrom token gpi s trace).interrupts = s.interrupts + countInterrupts trace := by
  induction trace generalizing s with
  | nil => simp [runFrom, countInterrupts]
  | cons p rest ih =>
      rw [runFrom_cons, ih, handleEvent_interrupts]
      simp [countInterrupts, List.countP_cons]
      omega

lemma handleEvent_result_congr (token token' : Option ProgressToken) (gpi : ImageInfo → Url)
    (s s' : AdapterState) (ev : CallbackEvent) (ab : Bool)
    (h : s.result = s'.result) :
    (handleEvent token gpi s ev ab).result = (handleEvent token' gpi s' ev ab).result := by
  rcases hs : s.result with _ | r
  · rw [handleEvent_result_none token gpi s ev ab hs,
        handleEvent_result_none token' gpi s' ev ab (by rw [← h, hs])]
  · rw [handleEvent_result_some token gpi s ev ab r hs,
        handleEvent_result_some token' gpi s' ev ab r (by rw [← h, hs])]

lemma runFrom_result_congr (token token' : Option ProgressToken) (gpi : ImageInfo → Url)
    (trace : List (CallbackEvent × Bool)) (s s' : AdapterState)
    (h : s.result = s'.result) :
    (runFrom token gpi s trace).result = (runFrom token' gpi s' trace).result := by
  induction trace generalizing s s' with
  | nil => simpa [runFrom] using h
  | cons p rest ih =>
      rw [runFrom_cons, runFrom_cons]
      exact ih _ _ (handleEvent_result_congr token token' gpi s s' p.1 p.2 h)

lemma settleValue_of_not_terminal (gpi : ImageInfo → Url) (ev : CallbackEvent)
    (h : isTerminal ev = false) : settleValue gpi ev = none := by
  rcases ev with data | msg | _ | _ | ⟨v, m, node⟩ <;> simp_all [isTerminal, settleValue]

lemma settleValue_isSome_of_terminal (gpi : ImageInfo → Url) (ev : CallbackEvent)
    (h : isTerminal ev = true) : (settleValue gpi ev).isSome = true := by
  rcases ev with data | msg | _ | _ | ⟨v, m, node⟩
  · rcases data with _ | ⟨_ | (_ | ⟨img, rest⟩)⟩ <;> simp [settleValue]
  · simp [settleValue]
  all_goals simp_all [isTerminal]

lemma firstSettle_of_find_terminal (gpi : ImageInfo → Url) (l : List CallbackEvent)
    (ev : CallbackEvent) (h : l.find? isTerminal = some ev) :
    firstSettle gpi l = settleValue gpi ev := by
  induction l with
  | nil => simp [List.find?] at h
  | cons a rest ih =>
      by_cases ha : isTerminal a = true
      · have : a = ev := by
          rw [List.find?_cons_of_pos _ ha] at h
          exact (Option.some_injective _ h)
        subst this
        have hs := settleValue_isSome_of_terminal gpi a ha
        rcases hsv : settleValue gpi a with _ | r
        · rw [hsv] at hs; simp at hs
        · simp [firstSettle, hsv]
      · have ha' : isTerminal a = false := by simpa using ha
        rw [List.find?_cons_of_neg _ (by simp [ha'])] at h
        rw [firstSettle, settleValue_of_not_terminal gpi a ha']
        exact ih h

/-- C1: For every sequence of remote-job callbacks delivered to one job, the
awaited result settles exactly once, and it settles via the first terminal
callback (`onFinished` or `onFailed`) received: the final settlement equals
the settlement of the first terminal callback of the trace, and once any
prefix of the trace has settled the result to `r`, appending arbitrary
further callbacks (including extra terminal ones) leaves it at `r`. -/
theorem C1_first_terminal_callback_wins (token : Option ProgressToken)
    (gpi : ImageInfo → Url) (trace t1 t2 : List (CallbackEvent × Bool))
    (r : Except String Url) :
    (runCallbacks token gpi trace).result = firstSettle gpi (trace.map Prod.fst) ∧
    ((runCallbacks token gpi t1).result = some r →
      (runCallbacks token gpi (t1 ++ t2)).result = some r) := by
  constructor
  · exact runFrom_result_none token gpi trace initState rfl
  · intro h
    unfold runCallbacks
    rw [runFrom_append]
    exact runFrom_result_some token gpi t2 _ r h

/-- Witness for C1 at a concrete trace: an `onFailed "boom"` settles the
result, and a later spurious `onFinished` with a perfectly good image does
not change it. -/
theorem C1_witness :
    (runCallbacks none samplePathImage
        ([(.onFailed "boom", false)] ++
          [(.onFinished (some ⟨some [⟨"a.png", "", "output"⟩]⟩), false)])).result
      = some (.error "boom") :=
  (C1_first_terminal_callback_wins none samplePathImage []
      [(.onFailed "boom", false)]
      [(.onFinished (some ⟨some [⟨"a.png", "", "output"⟩]⟩), false)]
      (.error "boom")).2 rfl

/-- C2: whenever the terminal callback that settles the job is an
`onFinished` whose output slot is absent, lacks an `images` list, or has an
empty one, the awaited result resolves to the "Generated image data not
found in ComfyUI response." error, the final tool result is that error with
`isError = true` (never a success), and both the rejection message and the
final result text contain "not found" case-insensitively. -/
theorem C2_missing_images_is_error_not_found (token : Option ProgressToken)
    (gpi : ImageInfo → Url) (trace : List (CallbackEvent × Bool))
    (s3Enabled : Bool) (upload : Url → Except String Url) (data : Option OutputData)
    (hfind : (trace.map Prod.fst).find? isTerminal = some (.onFinished data))
    (hmiss : missingImages data = true) :
    (toolHandler token gpi (.ok ()) trace s3Enabled upload).result
        = some (errorResult outputMissingMsg) ∧
    (errorResult outputMissingMsg).isError = true ∧
    containsCI outputMissingMsg "not found" = true ∧
    containsCI ("Error generating image: " ++ outputMissingMsg) "not found" = true := by
  have hsv : settleValue gpi (.onFinished data) = some (.error outputMissingMsg) := by
    rcases data with _ | ⟨_ | (_ | ⟨img, rest⟩)⟩ <;> simp_all [settleValue, missingImages]
  have hres : (runCallbacks token gpi trace).result = some (.error outputMissingMsg) := by
    have h1 := runFrom_result_none token gpi trace initState rfl
    rw [firstSettle_of_find_terminal gpi _ _ hfind, hsv] at h1
    exact h1
  refine ⟨?_, rfl, by decide, by decide⟩
  simp [toolHandler, runCallbacks] at hres ⊢
  rw [hres]

/-- Witness for C2: a single `onFinished` with `{ generated_image: { images: [] } }`. -/
theorem C2_witness :
    (toolHandler none samplePathImage (.ok ())
        [(.onFinished (some ⟨some []⟩), false)] false .ok).result
        = some (errorResult outputMissingMsg) ∧
    (errorResult outputMissingMsg).isError = true ∧
    containsCI outputMissingMsg "not found" = true ∧
    containsCI ("Error generating image: " ++ outputMissingMsg) "not found" = true :=
  C2_missing_images_is_error_not_found none samplePathImage
    [(.onFinished (some ⟨some []⟩), false)] false .ok (some ⟨some []⟩) rfl rfl

/-- C3: for every prompt and every behaviour of the remote engine
(initialisation outcome and callback trace) and of the storage collaborator
(upload behaviour), whenever the handler returns a result at all, that
result is well formed: either a success (`isError = false`) whose single
content item carries a URL text, or an error result (`isError = true`)
whose single content item carries the textual description built in the
catch block. The handler never lets a fault escape: every raised error is
converted into the error-result shape. -/
theorem C3_returned_results_well_formed (token : Option ProgressToken)
    (gpi : ImageInfo → Url) (initRes : Except String Unit)
    (trace : List (CallbackEvent × Bool)) (s3Enabled : Bool)
    (upload : Url → Except String Url) (r : CallToolResult)
    (h : (toolHandler token gpi initRes trace s3Enabled upload).result = some r) :
    (r.isError = false ∧ ∃ u : Url, r.content = [⟨"text", u⟩]) ∨
    (r.isError = true ∧ ∃ m : String, r.content = [⟨"text", "Error generating image: " ++ m⟩]) := by
  rcases initRes with msg | u
  · simp [toolHandler] at h
    rw [← h]
    exact Or.inr ⟨rfl, msg, rfl⟩
  · rcases hres : (runCallbacks token gpi trace).result with _ | (e | curl)
    · simp only [toolHandler] at h
      rw [hres] at h
      simp at h
    · simp only [toolHandler] at h
      rw [hres] at h
      simp at h
      rw [← h]
      exact Or.inr ⟨rfl, e, rfl⟩
    · simp only [toolHandler] at h
      rw [hres] at h
      simp at h
      rw [← h]
      exact Or.inl ⟨rfl, _, rfl⟩

/-- Witness for C3 at a concrete failing initialisation. -/
theorem C3_witness :
    ((errorResult "ECONNREFUSED").isError = false ∧
      ∃ u : Url, (errorResult "ECONNREFUSED").content = [⟨"text", u⟩]) ∨
    ((errorResult "ECONNREFUSED").isError = true ∧
      ∃ m : String, (errorResult "ECONNREFUSED").content
        = [⟨"text", "Error generating image: " ++ m⟩]) :=
  C3_returned_results_well_formed none samplePathImage (.error "ECONNREFUSED")
    [] false .ok (errorResult "ECONNREFUSED") rfl

/-- C4: when S3 re-hosting is enabled and the job succeeds with URL `url`
but `uploadToS3` throws, the handler still returns a success whose text is
the ComfyUI URL `url` itself (fallback at src/index.ts lines 311–317); the
upload failure never surfaces as a call failure. -/
theorem C4_upload_failure_falls_back (token : Option ProgressToken)
    (gpi : ImageInfo → Url) (trace : List (CallbackEvent × Bool))
    (upload : Url → Except String Url) (url : Url) (emsg : String)
    (hres : (runCallbacks token gpi trace).result = some (.ok url))
    (hup : upload url = .error emsg) :
    (toolHandler token gpi (.ok ()) trace true upload).result = some (successResult url) ∧
    (successResult url).isError = false := by
  refine ⟨?_, rfl⟩
  simp [toolHandler, runCallbacks] at hres ⊢
  rw [hres]
  simp [hup]

/-- Witness for C4: one good `onFinished`, upload always throwing. -/
theorem C4_witness :
    (toolHandler none samplePathImage (.ok ())
        [(.onFinished (some ⟨some [⟨"a.png", "", "output"⟩]⟩), false)] true
        (fun _ => .error "AccessDenied")).result
      = some (successResult (samplePathImage ⟨"a.png", "", "output"⟩)) ∧
    (successResult (samplePathImage ⟨"a.png", "", "output"⟩)).isError = false :=
  C4_upload_failure_falls_back none samplePathImage
    [(.onFinished (some ⟨some [⟨"a.png", "", "output"⟩]⟩), false)]
    (fun _ => .error "AccessDenied") (samplePathImage ⟨"a.png", "", "output"⟩)
    "AccessDenied" rfl rfl

/-- C5 (code bug): the session map is a plain object literal, so the
property read `transports[sessionId]` also finds the members every object
inherits from `Object.prototype`. At the never-registered session id
"toString" the read yields the inherited, truthy
`Object.prototype.toString`; the `if (transport)` guard is taken and the
call `transport.handlePostMessage(req, res)` throws a TypeError, so no
`400` client error is sent and no well-formed response is produced —
contradicting the specified behaviour, which the code delivers only for
unregistered ids that are not `Object.prototype` property names (such as
"session-2" below). -/
theorem C5_prototype_lookup_bug :
    lookupTransport ([("session-1", ())] : List (String × Unit)) "toString" = none ∧
    handleMessagesPost ([("session-1", ())] : List (String × Unit)) "toString"
        = PostResponse.thrownTypeError ∧
    handleMessagesPost ([("session-1", ())] : List (String × Unit)) "toString"
        ≠ PostResponse.clientError 400 "No transport found for sessionId" ∧
    handleMessagesPost ([("session-1", ())] : List (String × Unit)) "toString"
        ≠ PostResponse.forwarded () ∧
    handleMessagesPost ([("session-1", ())] : List (String × Unit)) "session-2"
        = PostResponse.clientError 400 "No transport found for sessionId" := by
  refine ⟨by decide, by decide, by decide, by decide, by decide⟩

/-- C6: the cancellation signal is polled exactly at `onPending` and
`onProgress`: any other callback never issues an interrupt, while a polled
callback observed with the signal set issues exactly one interrupt request
and leaves the settlement untouched — in particular a still-pending result
stays pending, so the adapter keeps waiting for a terminal callback instead
of aborting locally, and the interrupt is issued while the result is not
yet settled. -/
theorem C6_interrupt_polled_at_pending_progress (token : Option ProgressToken)
    (gpi : ImageInfo → Url) (s : AdapterState) (ev : CallbackEvent) (ab : Bool) :
    (pollsSignal ev = false →
      (handleEvent token gpi s ev ab).interrupts = s.interrupts) ∧
    (pollsSignal ev = true → ab = true →
      (handleEvent token gpi s ev ab).interrupts = s.interrupts + 1 ∧
      (handleEvent token gpi s ev ab).result = s.result) := by
  constructor
  · intro h
    rw [handleEvent_interrupts]
    simp [h]
  · intro h hab
    constructor
    · rw [handleEvent_interrupts]
      simp [h, hab]
    · rcases ev with data | msg | _ | _ | ⟨v, m, node⟩ <;>
        simp_all [pollsSignal, handleEvent, pollAbort_result, notify_result]

/-- Witness for C6: an aborted signal at `onPending` on the initial state
issues one interrupt and keeps the result pending, while `onStart` with the
same aborted signal issues none. -/
theorem C6_witness :
    (handleEvent none samplePathImage initState .onPending true).interrupts
        = initState.interrupts + 1 ∧
    (handleEvent none samplePathImage initState .onPending true).result
        = initState.result ∧
    (handleEvent none samplePathImage initState .onStart true).interrupts
        = initState.interrupts := by
  have h1 := (C6_interrupt_polled_at_pending_progress none samplePathImage
    initState .onPending true).2 rfl rfl
  have h2 := (C6_interrupt_polled_at_pending_progress none samplePathImage
    initState .onStart true).1 rfl
  exact ⟨h1.1, h1.2, h2⟩

/-- Counterexample for C8 as stated: the seed is `Math.floor(r * 1_000_000)`
for the RNG draw `r`, so two invocations whose RNG draws are `1/2` and
`1500001/3000000` — two distinct, legitimate `Math.random()` values — both
use the seed `500000`: seeds can be reused across calls, and (see the
amended theorem) every seed lies below `1_000_000`, so the range is bounded. -/
theorem C8_counterexample :
    generateSeed (1/2) = 500000 ∧
    generateSeed (1500001/3000000) = 500000 ∧
    (1/2 : ℚ) ≠ 1500001/3000000 := by
  refine ⟨?_, ?_, by norm_num⟩ <;> norm_num [generateSeed]

/-- C8 (amended): every invocation draws its seed as
`Math.floor(Math.random() * 1_000_000)`, an integer in the bounded range
`[0, 999999]`; the code gives no uniqueness guarantee across invocations. -/
theorem C8_seed_bounded (r : ℚ) (h0 : 0 ≤ r) (h1 : r < 1) :
    0 ≤ generateSeed r ∧ generateSeed r < 1000000 := by
  unfold generateSeed
  constructor
  · exact Int.floor_nonneg.mpr (by positivity)
  · rw [Int.floor_lt]
    push_cast
    linarith

/-- Witness for the amended C8 at the RNG draw `1/2`. -/
theorem C8_witness :
    0 ≤ generateSeed (1/2) ∧ generateSeed (1/2) < 1000000 :=
  C8_seed_bounded (1/2) (by norm_num) (by norm_num)

/-- Counterexample for C9 as stated: the `onProgress` handler emits
`info.value / info.max` without clamping, so the pair `value = 2, max = 1`
makes the handler emit progress `2`, which is not in `[0, 1]`. -/
theorem C9_counterexample :
    (handleEvent (some "tok") samplePathImage initState
        (.onProgress 2 1 "KSampler") false).notifications
      = [⟨"tok", 2⟩] ∧ ¬((2 : ℚ) ≤ 1) := by
  constructor
  · norm_num [handleEvent, notify, pollAbort, initState]
  · norm_num

/-- C9 (amended): for every `onProgress` callback delivered while a progress
token is present, the handler appends exactly one notification, tagged with
the caller's token and carrying `value / max`; that fraction lies in
`[0, 1]` whenever `0 ≤ value ≤ max` with `max` positive (the code itself
does not clamp, so pairs outside that range produce fractions outside
`[0, 1]`). -/
theorem C9_progress_fraction (gpi : ImageInfo → Url) (s : AdapterState)
    (t : ProgressToken) (v m : ℚ) (node : String) (ab : Bool)
    (h0 : 0 ≤ v) (hvm : v ≤ m) (hm : 0 < m) :
    (handleEvent (some t) gpi s (.onProgress v m node) ab).notifications
        = s.notifications ++ [⟨t, v / m⟩] ∧
    0 ≤ v / m ∧ v / m ≤ 1 := by
  refine ⟨?_, div_nonneg h0 (le_of_lt hm), ?_⟩
  · rw [handleEvent, pollAbort_notifications, notify]
  · rw [div_le_one hm]
    exact hvm

/-- Witness for the amended C9 at `value = 3, max = 4`. -/
theorem C9_witness :
    (handleEvent (some "tok") samplePathImage initState
        (.onProgress 3 4 "KSampler") false).notifications
        = initState.notifications ++ [⟨"tok", 3 / 4⟩] ∧
    0 ≤ (3 : ℚ) / 4 ∧ (3 : ℚ) / 4 ≤ 1 :=
  C9_progress_fraction samplePathImage initState "tok" 3 4 "KSampler" false
    (by norm_num) (by norm_num) (by norm_num)

/-- C10: when the caller supplies no progress token, the invocation emits no
progress notification at all — neither the pre-start one nor any at
`onStart`, `onPending` or `onProgress` — while the returned result and the
interrupt behaviour are exactly those of the same invocation with any
token present: every `sendNotification` is gated on the token. -/
theorem C10_no_token_no_notifications (gpi : ImageInfo → Url)
    (initRes : Except String Unit) (trace : List (CallbackEvent × Bool))
    (s3Enabled : Bool) (upload : Url → Except String Url) (t : ProgressToken) :
    (toolHandler none gpi initRes trace s3Enabled upload).notifications = [] ∧
    (toolHandler none gpi initRes trace s3Enabled upload).result
        = (toolHandler (some t) gpi initRes trace s3Enabled upload).result ∧
    (toolHandler none gpi initRes trace s3Enabled upload).interrupts
        = (toolHandler (some t) gpi initRes trace s3Enabled upload).interrupts := by
  rcases initRes with msg | u
  · exact ⟨rfl, rfl, rfl⟩
  · have hcong : (runCallbacks none gpi trace).result
        = (runCallbacks (some t) gpi trace).result :=
      runFrom_result_congr none (some t) gpi trace initState initState rfl
    have hnot : (runCallbacks none gpi trace).notifications = [] :=
      runFrom_notifications_none gpi trace initState
    have hint : ∀ tok : Option ProgressToken,
        (runCallbacks tok gpi trace).interrupts = countInterrupts trace := by
      intro tok
      have := runFrom_interrupts tok gpi trace initState
      simpa [initState] using this
    refine ⟨?_, ?_, ?_⟩
    · simp only [toolHandler]
      rcases hres : (runCallbacks none gpi trace).result with _ | (e | curl) <;>
        simp [hnot]
    · simp only [toolHandler]
      rw [← hcong]
      rcases hres : (runCallbacks none gpi trace).result with _ | (e | curl) <;> simp
    · simp only [toolHandler]
      rw [← hcong]
      rcases hres : (runCallbacks none gpi trace).result with _ | (e | curl) <;>
        simp [hint none, hint (some t)]
